import Mathlib

/-!
Verification of the vehicle-service-portal complaint core.

Shallow embedding of the three source files:
- `CompanyDashboard.jsx` (src/unnamed/part_000): staff dashboard with
  `fetchComplaints`, `filterComplaints`, `calculateStats`,
  `updateComplaintStatus`, `saveCompanyNotes`.
- `CustomerDashboard.jsx`: customer dashboard with `fetchComplaints`
  (own complaints only) and `handleSubmit`.
- `App.jsx` (with the `Login` component): `fetchUserRole`, role-based
  dashboard routing, and sign-up inserting the users row.

Statuses, filters, priorities and roles are JS strings and are kept as
`String`. Timestamps (`created_at` / `updated_at`, ISO-8601 strings in the
store, ordered lexicographically which matches chronological order) are
modelled as `Nat`. The Supabase store is modelled as the list of complaint
rows; a fetch result that may fail is an `Except`.
-/

namespace Portal

/-- A row of the `complaints` table, as selected and inserted by the two
dashboards (`id`, `user_id`, `bicycle_model`, `issue_type`, `description`,
`priority`, `status`, `company_notes`, `created_at`, `updated_at`). -/
structure Complaint where
  id : String
  user_id : String
  bicycle_model : String
  issue_type : String
  description : String
  priority : String
  status : String
  company_notes : Option String
  created_at : Nat
  updated_at : Nat
deriving Repr, DecidableEq

/-- The `stats` state of `CompanyDashboard`:
`{ total, pending, inProgress, completed }`. -/
structure Stats where
  total : Nat
  pending : Nat
  inProgress : Nat
  completed : Nat
deriving Repr, DecidableEq

/-- `calculateStats` from `CompanyDashboard`: counts are computed from the
`complaints` state (the unfiltered record set), never from
`filteredComplaints`. -/
def calculateStats (complaints : List Complaint) : Stats :=
  { total := complaints.length
    pending := (complaints.filter (fun c => c.status == "pending")).length
    inProgress := (complaints.filter (fun c => c.status == "in-progress")).length
    completed := (complaints.filter (fun c => c.status == "completed")).length }

/-- `filterComplaints` from `CompanyDashboard`: `let filtered = complaints`
then an `if`/`else if` chain on the `filter` state; a filter value matching
none of the branches leaves `filtered` as the full list. -/
def filterComplaints (filter : String) (complaints : List Complaint) :
    List Complaint :=
  if filter == "pending" then complaints.filter (fun c => c.status == "pending")
  else if filter == "in-progress" then
    complaints.filter (fun c => c.status == "in-progress")
  else if filter == "completed" then
    complaints.filter (fun c => c.status == "completed")
  else if filter == "all" then complaints
  else complaints

/-- Number of complaints in a record set whose `status` equals `s`. -/
def countStatus (s : String) (complaints : List Complaint) : Nat :=
  (complaints.filter (fun c => c.status == s)).length

/-- The relevant state of `CompanyDashboard`: the fetched `complaints` list
and the active `filter`. -/
structure CompanyDashState where
  complaints : List Complaint
  filter : String
deriving Repr, DecidableEq

/-- The list the staff table renders: `filteredComplaints`, maintained by the
effect running `filterComplaints()` on every `complaints`/`filter` change. -/
def visibleList (st : CompanyDashState) : List Complaint :=
  filterComplaints st.filter st.complaints

/-- The stats the staff cards render: `calculateStats()` over the
`complaints` state, run by the same effect. -/
def dashStats (st : CompanyDashState) : Stats :=
  calculateStats st.complaints

/-- Initial value of the `filter` state in `CompanyDashboard`:
`useState("pending")`. -/
def initialCompanyFilter : String := "pending"

/-- The `CompanyDashState` right after activation: the fetched record set
together with the initial filter, before any filter change. -/
def initialCompanyState (cs : List Complaint) : CompanyDashState :=
  { complaints := cs, filter := initialCompanyFilter }

/-- A concrete pending complaint used by concrete-input theorems. -/
def exPending : Complaint :=
  { id := "a", user_id := "u1", bicycle_model := "M1", issue_type := "battery",
    description := "does not charge", priority := "high", status := "pending",
    company_notes := none, created_at := 1, updated_at := 1 }

/-- A concrete cancelled complaint used by concrete-input theorems. -/
def exCancelled : Complaint :=
  { id := "b", user_id := "u2", bicycle_model := "M2", issue_type := "motor",
    description := "rattles", priority := "low", status := "cancelled",
    company_notes := none, created_at := 2, updated_at := 3 }

/-- A concrete two-element record set used by concrete-input theorems. -/
def exSet : List Complaint := [exPending, exCancelled]

/-- Partition lemma: when every status is one of the four recognized values,
the four per-status counts sum to the length of the record set. -/
theorem countStatus_partition (cs : List Complaint)
    (h : ∀ c ∈ cs, c.status = "pending" ∨ c.status = "in-progress" ∨
      c.status = "completed" ∨ c.status = "cancelled") :
    countStatus "pending" cs + countStatus "in-progress" cs +
      countStatus "completed" cs + countStatus "cancelled" cs = cs.length := by
  induction cs with
  | nil => simp [countStatus]
  | cons c cs ih =>
    have hc := h c (List.mem_cons_self c cs)
    have ht := ih (fun d hd => h d (List.mem_cons_of_mem c hd))
    rcases hc with h1 | h1 | h1 | h1 <;>
      simp [countStatus, List.filter_cons, h1] at ht ⊢ <;> omega

/-- C1: for a record set whose statuses are drawn from the four recognized
values, the staff aggregate counts satisfy
`pending + inProgress + completed + cancelled = total`; the counts are
computed from the unfiltered `complaints` state, so they are identical for
any two choices of active filter. -/
theorem stats_sum_and_filter_independent (cs : List Complaint)
    (h : ∀ c ∈ cs, c.status = "pending" ∨ c.status = "in-progress" ∨
      c.status = "completed" ∨ c.status = "cancelled") :
    ((calculateStats cs).pending + (calculateStats cs).inProgress +
        (calculateStats cs).completed + countStatus "cancelled" cs =
      (calculateStats cs).total) ∧
    (∀ f f' : String,
      dashStats { complaints := cs, filter := f } =
        dashStats { complaints := cs, filter := f' }) := by
  refine ⟨?_, fun f f' => rfl⟩
  have := countStatus_partition cs h
  simpa [calculateStats, countStatus] using this

/-- Witness for C1 at the concrete two-element record set `exSet`. -/
theorem stats_sum_and_filter_independent_witness :
    ((calculateStats exSet).pending + (calculateStats exSet).inProgress +
        (calculateStats exSet).completed + countStatus "cancelled" exSet =
      (calculateStats exSet).total) ∧
    (∀ f f' : String,
      dashStats { complaints := exSet, filter := f } =
        dashStats { complaints := exSet, filter := f' }) :=
  stats_sum_and_filter_independent exSet (by decide)

/-- C6: the staff filter shows exactly the records with the selected status
for the three recognized status filters, and the full record set for `"all"`
and for every unrecognized filter value. -/
theorem filterComplaints_cases (f : String) (cs : List Complaint) :
    (f = "pending" ∨ f = "in-progress" ∨ f = "completed" →
      filterComplaints f cs = cs.filter (fun c => c.status == f)) ∧
    (f ≠ "pending" → f ≠ "in-progress" → f ≠ "completed" →
      filterComplaints f cs = cs) := by
  constructor
  · rintro (rfl | rfl | rfl) <;> simp [filterComplaints]
  · intro h1 h2 h3
    simp [filterComplaints, h1, h2, h3]

/-- Witness for C6: a recognized filter selects by status, and the
unrecognized filter value `"cancelled"` behaves as `"all"`. -/
theorem filterComplaints_cases_witness :
    filterComplaints "completed" exSet =
      exSet.filter (fun c => c.status == "completed") ∧
    filterComplaints "cancelled" exSet = exSet :=
  ⟨(filterComplaints_cases "completed" exSet).1 (Or.inr (Or.inr rfl)),
   (filterComplaints_cases "cancelled" exSet).2 (by decide) (by decide)
     (by decide)⟩

/-- C10: on activation the staff view's filter is `"pending"`, so the
visible list is exactly the pending complaints of the fetched record set,
while the aggregate counts are computed over the whole record set. -/
theorem initial_staff_view (cs : List Complaint) :
    initialCompanyFilter = "pending" ∧
    visibleList (initialCompanyState cs) =
      cs.filter (fun c => c.status == "pending") ∧
    dashStats (initialCompanyState cs) = calculateStats cs ∧
    (dashStats (initialCompanyState cs)).total = cs.length := by
  refine ⟨rfl, ?_, rfl, rfl⟩
  simp [visibleList, initialCompanyState, initialCompanyFilter,
    filterComplaints]

/-- `updateComplaintStatus` from `CompanyDashboard`: the Supabase call
`update({ status: newStatus, updated_at: now }).eq("id", complaintId)`
applied to the `complaints` table. -/
def updateComplaintStatus (complaintId newStatus : String) (now : Nat)
    (store : List Complaint) : List Complaint :=
  store.map (fun c =>
    if c.id == complaintId then { c with status := newStatus, updated_at := now }
    else c)

/-- `saveCompanyNotes` from `CompanyDashboard`: the Supabase call
`update({ company_notes: notes, updated_at: now }).eq("id", complaintId)`
applied to the `complaints` table. -/
def saveCompanyNotes (complaintId : String) (notes : String) (now : Nat)
    (store : List Complaint) : List Complaint :=
  store.map (fun c =>
    if c.id == complaintId then
      { c with company_notes := some notes, updated_at := now }
    else c)

/-- C4: both mutations (status change and notes change) set `updated_at` of
the targeted record to the current time, so when the current time is at or
after every record's creation time, `updated_at ≥ created_at` holds for
every record after either mutation. -/
theorem mutations_set_updated_at (complaintId newStatus notes : String)
    (now : Nat) (store : List Complaint)
    (hinv : ∀ c ∈ store, c.created_at ≤ c.updated_at)
    (hnow : ∀ c ∈ store, c.created_at ≤ now) :
    (∀ c ∈ updateComplaintStatus complaintId newStatus now store,
      c.created_at ≤ c.updated_at ∧ (c.id = complaintId → c.updated_at = now)) ∧
    (∀ c ∈ saveCompanyNotes complaintId notes now store,
      c.created_at ≤ c.updated_at ∧ (c.id = complaintId → c.updated_at = now)) := by
  constructor
  · intro c hc
    rw [updateComplaintStatus, List.mem_map] at hc
    obtain ⟨d, hd, rfl⟩ := hc
    by_cases h : d.id = complaintId
    · simp [h, hnow d hd]
    · simp [h, hinv d hd]
  · intro c hc
    rw [saveCompanyNotes, List.mem_map] at hc
    obtain ⟨d, hd, rfl⟩ := hc
    by_cases h : d.id = complaintId
    · simp [h, hnow d hd]
    · simp [h, hinv d hd]

/-- Witness for C4 at the concrete record set `exSet` with current time 10. -/
theorem mutations_set_updated_at_witness :
    (∀ c ∈ updateComplaintStatus "a" "completed" 10 exSet,
      c.created_at ≤ c.updated_at ∧ (c.id = "a" → c.updated_at = 10)) ∧
    (∀ c ∈ saveCompanyNotes "a" "ordered part" 10 exSet,
      c.created_at ≤ c.updated_at ∧ (c.id = "a" → c.updated_at = 10)) :=
  mutations_set_updated_at "a" "completed" "ordered part" 10 exSet
    (by decide) (by decide)

/-- C5: setting a complaint's status to its current value is accepted (the
update applies to the whole store, dropping no record), leaves every
record's status unchanged, and refreshes `updated_at` of the targeted
record to the current time. -/
theorem setStatus_idempotent (complaintId s : String) (now : Nat)
    (store : List Complaint)
    (h : ∀ c ∈ store, c.id = complaintId → c.status = s) :
    ((updateComplaintStatus complaintId s now store).map Complaint.status =
      store.map Complaint.status) ∧
    (∀ c ∈ updateComplaintStatus complaintId s now store,
      c.id = complaintId → c.updated_at = now) ∧
    (updateComplaintStatus complaintId s now store).length = store.length := by
  refine ⟨?_, ?_, by simp [updateComplaintStatus]⟩
  · rw [updateComplaintStatus, List.map_map]
    apply List.map_congr_left
    intro c hc
    by_cases hid : c.id = complaintId
    · simp [Function.comp, hid, h c hc hid]
    · simp [Function.comp, hid]
  · intro c hc
    rw [updateComplaintStatus, List.mem_map] at hc
    obtain ⟨d, hd, rfl⟩ := hc
    by_cases hid : d.id = complaintId
    · simp [hid]
    · simp [hid]

/-- Witness for C5: re-setting the pending complaint `"a"` to `"pending"`
at time 5. -/
theorem setStatus_idempotent_witness :
    ((updateComplaintStatus "a" "pending" 5 exSet).map Complaint.status =
      exSet.map Complaint.status) ∧
    (∀ c ∈ updateComplaintStatus "a" "pending" 5 exSet,
      c.id = "a" → c.updated_at = 5) ∧
    (updateComplaintStatus "a" "pending" 5 exSet).length = exSet.length :=
  setStatus_idempotent "a" "pending" 5 exSet (by decide)

/-- Newest-first order on complaints: `a` precedes `b` when
`b.created_at ≤ a.created_at`. -/
def createdDesc (a b : Complaint) : Prop := b.created_at ≤ a.created_at

instance : DecidableRel createdDesc := fun a b => Nat.decLe b.created_at a.created_at

instance : IsTotal Complaint createdDesc :=
  ⟨fun a b => Nat.le_total b.created_at a.created_at⟩

instance : IsTrans Complaint createdDesc :=
  ⟨fun _ _ _ h1 h2 => le_trans h2 h1⟩

/-- The store's `.order("created_at", { ascending: false })`: the rows
sorted newest-first. -/
def sortByCreatedDesc (l : List Complaint) : List Complaint :=
  List.insertionSort createdDesc l

/-- `fetchComplaints` from `CustomerDashboard`: select the rows with
`user_id` equal to `session.user.id`, ordered by `created_at` descending. -/
def customerFetchComplaints (uid : String) (store : List Complaint) :
    List Complaint :=
  sortByCreatedDesc (store.filter (fun c => c.user_id == uid))

/-- C3: every complaint in a customer-scoped fetch is owned by the viewer. -/
theorem customer_view_owner_only (uid : String) (store : List Complaint) :
    ∀ c ∈ customerFetchComplaints uid store, c.user_id = uid := by
  intro c hc
  rw [customerFetchComplaints, sortByCreatedDesc] at hc
  rw [List.mem_insertionSort, List.mem_filter] at hc
  exact beq_iff_eq.mp hc.2

/-- Witness for C3: the pending complaint fetched by viewer `"u1"` from the
concrete store is owned by `"u1"`. -/
theorem customer_view_owner_only_witness : exPending.user_id = "u1" :=
  customer_view_owner_only "u1" exSet exPending (by decide)

/-- The refresh-relevant state of `CustomerDashboard`: the `complaints`
list and the `loading` flag. -/
structure CustomerViewState where
  complaints : List Complaint
  loading : Bool
deriving Repr, DecidableEq

/-- The refresh-relevant state of `CompanyDashboard`: the `complaints`
list, the `loading` flag and the active `filter`. -/
structure CompanyViewState where
  complaints : List Complaint
  loading : Bool
  filter : String
deriving Repr, DecidableEq

/-- One refresh of `CustomerDashboard.fetchComplaints` applied to the view
state: on success `setComplaints(data || [])`; on a thrown error the catch
only reports (`console.error`) and `complaints` is untouched; the `finally`
clears `loading`. Returns the new state and the reported error, if any. -/
def applyCustomerFetch (st : CustomerViewState)
    (result : Except String (Option (List Complaint))) :
    CustomerViewState × Option String :=
  match result with
  | .ok data => ({ complaints := data.getD [], loading := false }, none)
  | .error e => ({ st with loading := false }, some e)

/-- One refresh of `CompanyDashboard.fetchComplaints` applied to the view
state: same `try`/`catch`/`finally` shape as the customer fetch; the active
filter is not touched by a refresh. -/
def applyCompanyFetch (st : CompanyViewState)
    (result : Except String (Option (List Complaint))) :
    CompanyViewState × Option String :=
  match result with
  | .ok data => ({ st with complaints := data.getD [], loading := false }, none)
  | .error e => ({ st with loading := false }, some e)

/-- C7: in both views, a failed refresh leaves the previously rendered
complaint list unchanged and reports the error; the view is never cleared
by a fetch failure. -/
theorem fetch_failure_preserves_view (cst : CustomerViewState)
    (sst : CompanyViewState) (e e' : String) :
    ((applyCustomerFetch cst (.error e)).1.complaints = cst.complaints ∧
      (applyCustomerFetch cst (.error e)).2 = some e) ∧
    ((applyCompanyFetch sst (.error e')).1.complaints = sst.complaints ∧
      (applyCompanyFetch sst (.error e')).2 = some e') :=
  ⟨⟨rfl, rfl⟩, ⟨rfl, rfl⟩⟩

/-- The `formData` state of `CustomerDashboard`. -/
structure FormData where
  bicycle_model : String
  issue_type : String
  description : String
  priority : String
deriving Repr, DecidableEq

/-- The row `handleSubmit` inserts: the form fields with
`user_id: session.user.id` and `status: "pending"`; `id`, `created_at` and
`updated_at` are assigned by the store at insertion time. -/
def insertedComplaint (uid : String) (form : FormData) (newId : String)
    (now : Nat) : Complaint :=
  { id := newId, user_id := uid, bicycle_model := form.bicycle_model,
    issue_type := form.issue_type, description := form.description,
    priority := form.priority, status := "pending", company_notes := none,
    created_at := now, updated_at := now }

/-- Possible outcomes of a submission as the handler distinguishes them:
the success path and the catch path (store rejection). The handler has no
validation branch, so no third outcome exists in the code. -/
inductive SubmitOutcome
  | success
  | validationError
  | storeError
deriving Repr, DecidableEq

/-- `handleSubmit` from `CustomerDashboard`: no field validation is
performed in the handler; the insert is issued directly with the form
fields as they are. `insertOk` is whether the store accepts the insert; on
acceptance the row is appended with id `newId` and creation time `now`; on
store failure the catch reports and the store is unchanged. -/
def handleSubmit (insertOk : Bool) (uid : String) (form : FormData)
    (newId : String) (now : Nat) (store : List Complaint) :
    SubmitOutcome × List Complaint :=
  if insertOk then (.success, store ++ [insertedComplaint uid form newId now])
  else (.storeError, store)

/-- C2 counterexample: a submission whose description is empty is not
rejected with a validation error — when the store accepts the insert the
outcome is success and a record is inserted (the record set changes). -/
theorem submit_empty_description_not_rejected :
    (handleSubmit true "u1"
      { bicycle_model := "EV-Sport 2024", issue_type := "battery",
        description := "", priority := "medium" } "c9" 7 []).1 =
      SubmitOutcome.success ∧
    (handleSubmit true "u1"
      { bicycle_model := "EV-Sport 2024", issue_type := "battery",
        description := "", priority := "medium" } "c9" 7 []).2 ≠ [] := by
  decide

/-- C2 amended: `handleSubmit` performs no description validation — when
the store accepts the insert, any submission (empty description included)
succeeds and appends the row with the given description, and no outcome of
the handler is a validation error (empty-field prevention lives only in the
form's `required` attributes, outside the handler). -/
theorem handleSubmit_no_validation (uid : String) (form : FormData)
    (newId : String) (now : Nat) (store : List Complaint) :
    (handleSubmit true uid form newId now store).1 = SubmitOutcome.success ∧
    (handleSubmit true uid form newId now store).2 =
      store ++ [insertedComplaint uid form newId now] ∧
    ∀ ok, (handleSubmit ok uid form newId now store).1 ≠
      SubmitOutcome.validationError := by
  refine ⟨rfl, rfl, fun ok => ?_⟩
  cases ok <;> simp [handleSubmit]

/-- Head of the newest-first sort: an element strictly newer than every
other element of the list is the head of the sorted list. -/
theorem head_of_sortByCreatedDesc (l : List Complaint) (x : Complaint)
    (hx : x ∈ l) (hmax : ∀ y ∈ l, y ≠ x → y.created_at < x.created_at) :
    (sortByCreatedDesc l).head? = some x := by
  have hperm := List.perm_insertionSort createdDesc l
  have hsorted := List.sorted_insertionSort createdDesc l
  rw [sortByCreatedDesc]
  cases hs : List.insertionSort createdDesc l with
  | nil =>
    rw [hs] at hperm
    exact absurd (hperm.symm.mem_iff.mp hx) (List.not_mem_nil x)
  | cons h t =>
    rw [hs] at hperm hsorted
    have hh : h ∈ l := hperm.mem_iff.mp (List.mem_cons_self h t)
    by_cases hhx : h = x
    · simp [hhx]
    · exfalso
      have hlt : h.created_at < x.created_at := hmax h hh hhx
      have hxs : x ∈ h :: t := hperm.mem_iff.mpr hx
      rcases List.mem_cons.mp hxs with h1 | h1
      · exact hhx h1.symm
      · have hle : x.created_at ≤ h.created_at :=
          List.rel_of_sorted_cons hsorted x h1
        exact absurd hlt (Nat.not_lt.mpr hle)

/-- C8: a successful submission creates a record with status `"pending"`
owned by the submitting user, and — the store assigning it a creation time
newer than every existing record's — it appears at the head of that
customer's newest-first list. -/
theorem submit_success_pending_at_head (uid : String) (form : FormData)
    (newId : String) (now : Nat) (store : List Complaint)
    (hfresh : ∀ c ∈ store, c.created_at < now) :
    (handleSubmit true uid form newId now store).1 = SubmitOutcome.success ∧
    (insertedComplaint uid form newId now).status = "pending" ∧
    (insertedComplaint uid form newId now).user_id = uid ∧
    (customerFetchComplaints uid
        (handleSubmit true uid form newId now store).2).head? =
      some (insertedComplaint uid form newId now) := by
  refine ⟨rfl, rfl, rfl, ?_⟩
  rw [customerFetchComplaints]
  apply head_of_sortByCreatedDesc
  · simp [handleSubmit, List.mem_filter, insertedComplaint]
  · intro y hy hne
    rw [List.mem_filter] at hy
    have hy1 := hy.1
    simp [handleSubmit] at hy1
    rcases hy1 with h1 | h1
    · exact hfresh y h1
    · exact absurd h1 hne

/-- Witness for C8: the demo submission on top of the concrete store, with
a creation time newer than both existing records. -/
theorem submit_success_pending_at_head_witness :
    (handleSubmit true "u1"
      { bicycle_model := "EV-Sport 2024", issue_type := "battery",
        priority := "high", description := "Won't hold charge" }
      "n1" 10 exSet).1 = SubmitOutcome.success ∧
    (insertedComplaint "u1"
      { bicycle_model := "EV-Sport 2024", issue_type := "battery",
        priority := "high", description := "Won't hold charge" }
      "n1" 10).status = "pending" ∧
    (insertedComplaint "u1"
      { bicycle_model := "EV-Sport 2024", issue_type := "battery",
        priority := "high", description := "Won't hold charge" }
      "n1" 10).user_id = "u1" ∧
    (customerFetchComplaints "u1"
        (handleSubmit true "u1"
          { bicycle_model := "EV-Sport 2024", issue_type := "battery",
            priority := "high", description := "Won't hold charge" }
          "n1" 10 exSet).2).head? =
      some (insertedComplaint "u1"
        { bicycle_model := "EV-Sport 2024", issue_type := "battery",
          priority := "high", description := "Won't hold charge" }
        "n1" 10) :=
  submit_success_pending_at_head "u1" _ "n1" 10 exSet (by decide)

/-- `fetchUserRole` from `App`: the role lookup on the `users` table is an
`Except` carrying the nullable `role` column; a thrown error is caught and
the role set to `"customer"`; on success `data?.role || "customer"` falls
back to `"customer"` when the column is null or the empty string (JS
falsy). -/
def fetchUserRole (result : Except String (Option String)) : String :=
  match result with
  | .ok (some r) => if r = "" then "customer" else r
  | .ok none => "customer"
  | .error _ => "customer"

/-- The two dashboards `App` can render. -/
inductive Dashboard
  | company
  | customer
deriving Repr, DecidableEq

/-- The routing in `App`:
`userRole === "company" ? CompanyDashboard : CustomerDashboard`. -/
def renderedDashboard (role : String) : Dashboard :=
  if role = "company" then .company else .customer

/-- `handleSignUp` from `Login`: the users row is always inserted with
`role: "customer"`. -/
def signUpRole : String := "customer"

/-- C9: the staff dashboard is rendered exactly when the role lookup
succeeded with role `"company"`; sign-up always writes role `"customer"`,
and a failed or empty lookup defaults to `"customer"` — every error path
lands on the customer dashboard. -/
theorem staff_dashboard_fail_closed :
    signUpRole = "customer" ∧
    (∀ result, renderedDashboard (fetchUserRole result) = Dashboard.company ↔
      result = Except.ok (some "company")) ∧
    (∀ e, fetchUserRole (.error e) = "customer") ∧
    fetchUserRole (.ok none) = "customer" := by
  refine ⟨rfl, ?_, fun e => rfl, rfl⟩
  intro result
  match result with
  | .error e => simp [fetchUserRole, renderedDashboard]
  | .ok none => simp [fetchUserRole, renderedDashboard]
  | .ok (some r) =>
    by_cases hr : r = ""
    · simp [fetchUserRole, renderedDashboard, hr]
    · by_cases hc : r = "company"
      · simp [fetchUserRole, renderedDashboard, hr, hc]
      · simp [fetchUserRole, renderedDashboard, hr, hc]

end Portal
